import Mathlib

/-!
Shallow embedding of the ITDM demand-management workflow core.

Sources:
- src/ITDM-main/src/workflow.ts : the Stage Table (WORKFLOW_STAGES) and the
  progress-view builder buildWorkflow (its index computation is named
  stagePosition below, following the specification's name for it).
- src/unnamed/part_005 : the approval state machine (STAGE_FLOW, stageIndex,
  requiredRoleForStage, nextStageFrom), the guard userCanActOnSelected, and
  the approveSelected / rejectSelected operations.
- src/unnamed/part_000 : updateDemand (full-row merge-then-write) and
  toUtcMidnight.

Modelling conventions:
- JavaScript null and undefined are both modelled as Option.none.  Call sites
  in this repository never put an explicit null into a patch, so the
  spread/nullish distinction between a null-valued key and an absent key does
  not arise on any path the claims quantify over.
- A JS findIndex call is modelled as an Int (-1 when absent), mirroring the
  source's explicit handling of the -1 case.
- Fields that the TypeScript interface marks required (title, status, ...) are
  still guarded at runtime with nullish fallbacks (rows come from a generic
  REST layer), so the row model makes them optional, matching those guards.
-/

namespace ITDM

/-! ## Data model -/

/-- Demand lifecycle status, from src/src/types.ts (DemandStatus). -/
inductive Status
  | Draft
  | Submitted
  | UnderReview
  | Approved
  | Rejected
  | Completed
deriving DecidableEq

/-- Acting role, from the Role union in src/unnamed/part_005. -/
inductive Role
  | DemandRequestor
  | BUHead
  | ITPMO
  | DBR
deriving DecidableEq

/-- One entry of the Stage Table (workflow.ts WORKFLOW_STAGES element). -/
structure StageEntry where
  id : Nat
  key : String
  name : String
  descr : String
deriving DecidableEq

/-- The Stage Table, from workflow.ts WORKFLOW_STAGES (9 entries, fixed order).
Display descriptions are abbreviated; no claim depends on them. -/
def WORKFLOW_STAGES : List StageEntry := [
  ⟨1, "Intake", "Demand Capture", "Logging of new business demand"⟩,
  ⟨2, "Screening", "Demand Qualification", "Assess business need"⟩,
  ⟨3, "Assessment", "Demand Assessment", "Feasibility, risk, urgency"⟩,
  ⟨4, "Evaluation", "Demand Evaluation", "Impact, value, risk, capacity"⟩,
  ⟨5, "Authorization", "Demand Prioritization & Authorization", "Formal evaluation"⟩,
  ⟨6, "Business Case Development", "Business Case Development", "Formal business case"⟩,
  ⟨7, "Service Portfolio Entry", "Service Portfolio Entry / Service Pipeline", "Into portfolio"⟩,
  ⟨8, "Service Implementation/Monitoring", "Service Implementation / Monitoring", "Delivery"⟩,
  ⟨9, "Closure", "Demand Closure", "Closure & Feedback"⟩]

/-- JS Array.prototype.findIndex: index of the first match, -1 when none. -/
def jsFindIndex {α : Type} (l : List α) (p : α → Bool) : Int :=
  match l.findIdx? p with
  | some i => (i : Int)
  | none => -1

/-- JS String.prototype.toLowerCase, modelled character-wise (the stage keys
are ASCII, where Char.toLower agrees with the JS case mapping). -/
def jsToLower (s : String) : String := ⟨s.data.map Char.toLower⟩

/-- Whitespace as trimmed by JS String.prototype.trim (the ASCII part). -/
def isJsSpace (c : Char) : Bool := c == ' ' || c == '\t' || c == '\n' || c == '\r'

/-- JS String.prototype.trim: strip whitespace from both ends. -/
def jsTrim (s : String) : String :=
  ⟨((s.data.dropWhile isJsSpace).reverse.dropWhile isJsSpace).reverse⟩

/-- The index computation inside buildWorkflow (workflow.ts):
String(currentKey ?? "Intake").toLowerCase().trim(), then
Math.max(0, findIndex on lower-cased table keys).  The specification calls
this function stagePosition. -/
def stagePosition (currentKey : Option String) : Nat :=
  let key := jsTrim (jsToLower (currentKey.getD "Intake"))
  (max 0 (jsFindIndex WORKFLOW_STAGES (fun s => jsToLower s.key == key))).toNat

/-- One row of the progress view returned by buildWorkflow (WorkflowStage). -/
structure ViewStage where
  id : Nat
  name : String
  descr : String
  completed : Bool
  current : Bool
deriving DecidableEq

/-- The map step of buildWorkflow, given the already-resolved current index. -/
def buildWorkflowAt (currentIndex : Nat) : List ViewStage :=
  WORKFLOW_STAGES.enum.map fun p =>
    ⟨p.2.id, p.2.name, p.2.descr, decide (p.1 < currentIndex), decide (p.1 = currentIndex)⟩

/-- buildWorkflow from workflow.ts: resolve the current index, then map the
Stage Table to completed/current flags. -/
def buildWorkflow (currentKey : Option String) : List ViewStage :=
  buildWorkflowAt (stagePosition currentKey)

/-! ## Approval state machine (src/unnamed/part_005) -/

/-- One entry of STAGE_FLOW: a stage name and the role required to act, null
for the terminal gate. -/
structure FlowEntry where
  stage : String
  role : Option Role
deriving DecidableEq

/-- STAGE_FLOW from part_005: the 5-entry sequential approval flow. -/
def STAGE_FLOW : List FlowEntry := [
  ⟨"Intake", some Role.DemandRequestor⟩,
  ⟨"Screening", some Role.BUHead⟩,
  ⟨"Assessment", some Role.ITPMO⟩,
  ⟨"Authorization", some Role.DBR⟩,
  ⟨"Service Portfolio Entry", none⟩]

/-- stageIndex from part_005: findIndex of the stage (default "Intake" for a
null stage) in STAGE_FLOW, with a negative result replaced by 0.  The exact
string is compared: no case folding, no trimming. -/
def stageIndex (stage : Option String) : Nat :=
  let i := jsFindIndex STAGE_FLOW (fun s => s.stage == stage.getD "Intake")
  if 0 ≤ i then i.toNat else 0

/-- Default used only to satisfy List.getD; stageIndex is always in range
(it is a found index or 0), so this value is never read. -/
def flowDefault : FlowEntry := ⟨"Intake", some Role.DemandRequestor⟩

/-- requiredRoleForStage from part_005: STAGE_FLOW[stageIndex(stage)].role. -/
def requiredRoleForStage (stage : Option String) : Option Role :=
  (STAGE_FLOW.getD (stageIndex stage) flowDefault).role

/-- nextStageFrom from part_005:
STAGE_FLOW[Math.min(i + 1, STAGE_FLOW.length - 1)].stage. -/
def nextStageFrom (stage : Option String) : String :=
  let i := stageIndex stage
  (STAGE_FLOW.getD (min (i + 1) (STAGE_FLOW.length - 1)) flowDefault).stage

/-! ## Demand rows, patches and the store write (part_000, part_005) -/

/-- A demand row as read from the store.  Field names follow the Demand
interface in src/src/types.ts (both snake_case and camelCase aliases exist
on rows).  expectedStartDate is not declared in the interface but is read by
updateDemand through an any-typed merge, so it is part of the row model. -/
structure Demand where
  id : String
  title : Option String := none
  type : Option String := none
  priority : Option String := none
  status : Option Status := none
  currentStage : Option String := none
  current_stage : Option String := none
  createdDate : Option String := none
  created_date : Option String := none
  expectedDelivery : Option String := none
  expected_delivery : Option String := none
  expectedStartDate : Option String := none
  expected_start_date : Option String := none
  descr : Option String := none
  requestor : Option String := none
  department : Option String := none
  progress : Option Int := none
  business_justification : Option String := none
  expected_benefits : Option String := none
  risk_assessment : Option String := none
  success_criteria : Option String := none
  estimated_cost : Option Int := none
  budget_source : Option String := none
  cost_category : Option String := none
  roi : Option Int := none
  last_modified_by : Option String := none
deriving DecidableEq

/-- A Partial Demand patch: none models a key absent from the patch. -/
structure Patch where
  title : Option String := none
  type : Option String := none
  priority : Option String := none
  status : Option Status := none
  currentStage : Option String := none
  current_stage : Option String := none
  createdDate : Option String := none
  created_date : Option String := none
  expectedDelivery : Option String := none
  expected_delivery : Option String := none
  expectedStartDate : Option String := none
  expected_start_date : Option String := none
  descr : Option String := none
  requestor : Option String := none
  department : Option String := none
  progress : Option Int := none
  business_justification : Option String := none
  expected_benefits : Option String := none
  risk_assessment : Option String := none
  success_criteria : Option String := none
  estimated_cost : Option Int := none
  budget_source : Option String := none
  cost_category : Option String := none
  roi : Option Int := none
  last_modified_by : Option String := none
deriving DecidableEq

/-- Spread/nullish merge on one field: the first operand wins when present.
Models both the object spread in the merge m and the ?? chains of the
payload (null and undefined are both none here). -/
def ovr {α : Type} (a b : Option α) : Option α :=
  match a with
  | some v => some v
  | none => b

@[simp] theorem ovr_some {α : Type} (v : α) (b : Option α) : ovr (some v) b = some v := rfl

@[simp] theorem ovr_none {α : Type} (b : Option α) : ovr none b = b := rfl

/-- JS regex test for YYYY-MM-DD used by toUtcMidnight. -/
def matchesDateShape (s : String) : Bool :=
  match s.data with
  | [a, b, c, d, h1, e, f, h2, g, h] =>
    a.isDigit && b.isDigit && c.isDigit && d.isDigit && h1 == '-' &&
    e.isDigit && f.isDigit && h2 == '-' && g.isDigit && h.isDigit
  | _ => false

/-- toUtcMidnight from part_000: falsy input gives undefined, a bare
YYYY-MM-DD date gets a T00:00:00Z suffix, anything else passes through. -/
def toUtcMidnight (dateLike : Option String) : Option String :=
  match dateLike with
  | none => none
  | some s =>
    if s = "" then none
    else if matchesDateShape s then some (s ++ "T00:00:00Z")
    else some s

/-- The full-row payload written by updateDemand (part_000): a fixed set of
columns; every key is present, values may be null (none). -/
structure UpdatePayload where
  id : String
  title : String
  type : Option String
  priority : Option String
  status : Option Status
  current_stage : Option String
  descr : Option String
  requestor : Option String
  department : Option String
  expected_start_date : Option String
  expected_delivery : Option String
  business_justification : Option String
  expected_benefits : Option String
  risk_assessment : Option String
  success_criteria : Option String
  estimated_cost : Option Int
  budget_source : Option String
  cost_category : Option String
  roi : Option Int
  progress : Option Int
  created_date : Option String
deriving DecidableEq

/-- The payload computation of updateDemand (part_000): merge the stored row
with the patch (patch wins per key), then build the full payload.  Note that
created_date is taken from the stored row only (the source keeps the original
created date on update), and that last_modified_by and the camelCase alias
fields have no column in the payload. -/
def updatePayload (id : String) (cur : Demand) (patch : Patch) : UpdatePayload :=
  { id := id
    title := (ovr patch.title cur.title).getD "(Untitled)"
    type := ovr patch.type cur.type
    priority := ovr patch.priority cur.priority
    status := ovr patch.status cur.status
    current_stage := ovr (ovr patch.current_stage cur.current_stage)
      (ovr patch.currentStage cur.currentStage)
    descr := ovr patch.descr cur.descr
    requestor := ovr patch.requestor cur.requestor
    department := ovr patch.department cur.department
    expected_start_date := toUtcMidnight (ovr (ovr patch.expected_start_date cur.expected_start_date)
      (ovr patch.expectedStartDate cur.expectedStartDate))
    expected_delivery := toUtcMidnight (ovr (ovr patch.expected_delivery cur.expected_delivery)
      (ovr patch.expectedDelivery cur.expectedDelivery))
    business_justification := ovr patch.business_justification cur.business_justification
    expected_benefits := ovr patch.expected_benefits cur.expected_benefits
    risk_assessment := ovr patch.risk_assessment cur.risk_assessment
    success_criteria := ovr patch.success_criteria cur.success_criteria
    estimated_cost := ovr patch.estimated_cost cur.estimated_cost
    budget_source := ovr patch.budget_source cur.budget_source
    cost_category := ovr patch.cost_category cur.cost_category
    roi := ovr patch.roi cur.roi
    progress := ovr patch.progress cur.progress
    created_date := ovr cur.created_date cur.createdDate }

/-! ## Guard and approve/reject operations (part_005) -/

/-- JS logical-or on possibly-absent strings: the empty string is falsy. -/
def jsOr (a b : Option String) : Option String :=
  match a with
  | some s => if s = "" then b else some s
  | none => b

/-- JS truthiness of a possibly-absent string. -/
def jsTruthy (a : Option String) : Bool :=
  match a with
  | some s => decide (s ≠ "")
  | none => false

/-- userCanActOnSelected from part_005: the required role of the resolved
stage equals the acting role, and the status is Submitted or Under Review. -/
def userCanActOnSelected (d : Demand) (currentRole : Role) : Bool :=
  decide (requiredRoleForStage (jsOr d.current_stage d.currentStage) = some currentRole) &&
    (decide (d.status = some Status.Submitted) || decide (d.status = some Status.UnderReview))

/-- The visibility condition of the Approve/Reject buttons in part_005:
(selectedDemand.current_stage || selectedDemand.currentStage) truthy and
userCanActOnSelected.  This is the only permission gate on the two actions. -/
def approvalControlsVisible (d : Demand) (currentRole : Role) : Bool :=
  jsTruthy (jsOr d.current_stage d.currentStage) && userCanActOnSelected d currentRole

/-- The stage string approveSelected starts from:
selectedDemand.current_stage || selectedDemand.currentStage || "Intake". -/
def approveCurrentStage (d : Demand) : String :=
  match jsOr d.current_stage d.currentStage with
  | some s => if s = "" then "Intake" else s
  | none => "Intake"

/-- The patch approveSelected passes to updateDemand (part_005).  The
operation performs no permission re-check: it always issues this write.
isLastApprover compares the resolved index with findIndex of the
Authorization entry. -/
def approveSelectedPatch (d : Demand) : Patch :=
  let current := approveCurrentStage d
  let i := stageIndex (some current)
  let isLastApprover := decide ((i : Int) ≥ jsFindIndex STAGE_FLOW (fun s => s.stage == "Authorization"))
  let nxt := nextStageFrom (some current)
  if isLastApprover then
    { status := some Status.Approved, current_stage := some nxt }
  else
    { status := some Status.UnderReview, current_stage := some nxt }

/-- The patch rejectSelected passes to updateDemand (part_005): only the
status field, no stage field, computed without consulting nextStageFrom. -/
def rejectPatch : Patch := { status := some Status.Rejected }

/-! ## Concrete demand snapshots used by witnesses and counterexamples -/

/-- A demand at stage Screening with status Submitted. -/
def screeningSubmitted : Demand :=
  { id := "D-100", status := some Status.Submitted, current_stage := some "Screening" }

/-- A demand at the final gated stage Authorization, under review. -/
def authUnderReview : Demand :=
  { id := "D-200", status := some Status.UnderReview, current_stage := some "Authorization" }

/-- A demand at stage Intake, under review. -/
def intakeUnderReview : Demand :=
  { id := "D-201", status := some Status.UnderReview, current_stage := some "Intake" }

/-- A demand at stage Screening, under review. -/
def screeningUnderReview : Demand :=
  { id := "D-202", status := some Status.UnderReview, current_stage := some "Screening" }

/-- A demand at stage Assessment, under review. -/
def assessmentUnderReview : Demand :=
  { id := "D-203", status := some Status.UnderReview, current_stage := some "Assessment" }

/-- A demand still in Draft at stage Screening. -/
def draftScreening : Demand :=
  { id := "D-300", status := some Status.Draft, current_stage := some "Screening" }

/-- A stored row with a created date and a last-modifier, for the
updateDemand claims. -/
def storedRow : Demand :=
  { id := "D-400", title := some "Boost", status := some Status.Submitted,
    current_stage := some "Intake", created_date := some "2020-01-01",
    descr := some "initial request", last_modified_by := some "alice" }

/-- A patch that tries to overwrite the created date. -/
def createdDatePatch : Patch := { created_date := some "2024-06-30" }

/-- Default used only to satisfy List.getD on the progress view. -/
def viewDefault : ViewStage := ⟨0, "", "", false, false⟩

/-! ## Helper lemmas -/

/-- stageIndex lands strictly inside STAGE_FLOW: it is a found index or 0. -/
theorem stageIndex_lt_length (s : Option String) : stageIndex s < STAGE_FLOW.length := by
  rcases h : STAGE_FLOW.findIdx? (fun e => e.stage == s.getD "Intake") with _ | i
  · simp only [stageIndex, jsFindIndex, h]
    decide
  · have hi : i < STAGE_FLOW.length := (List.findIdx?_eq_some_iff_findIdx_eq.mp h).1
    simp only [stageIndex, jsFindIndex, h]
    have h5 : STAGE_FLOW.length = 5 := rfl
    rw [h5] at hi ⊢
    split <;> omega

/-- stagePosition lands strictly inside the Stage Table. -/
theorem stagePosition_lt_length (k : Option String) :
    stagePosition k < WORKFLOW_STAGES.length := by
  rcases h : WORKFLOW_STAGES.findIdx?
      (fun s => jsToLower s.key == jsTrim (jsToLower (k.getD "Intake"))) with _ | i
  · simp only [stagePosition, jsFindIndex, h]
    decide
  · have hi : i < WORKFLOW_STAGES.length := (List.findIdx?_eq_some_iff_findIdx_eq.mp h).1
    simp only [stagePosition, jsFindIndex, h]
    have h9 : WORKFLOW_STAGES.length = 9 := rfl
    rw [h9] at hi ⊢
    omega

/-- A stage name outside STAGE_FLOW resolves to index 0. -/
theorem stageIndex_eq_zero_of_not_mem (s : String)
    (h : s ∉ STAGE_FLOW.map FlowEntry.stage) : stageIndex (some s) = 0 := by
  have hnone : STAGE_FLOW.findIdx? (fun e => e.stage == s) = none := by
    rw [List.findIdx?_eq_none_iff]
    intro x hx
    simp only [beq_eq_false_iff_ne]
    exact fun hEq => h (hEq ▸ List.mem_map_of_mem FlowEntry.stage hx)
  simp only [stageIndex, jsFindIndex, Option.getD_some, hnone]
  decide

/-- A key that resolves (lower-cased, trimmed) to no Stage Table entry gives
stagePosition 0. -/
theorem stagePosition_eq_zero_of_not_mem (s : String)
    (h : jsTrim (jsToLower s) ∉ WORKFLOW_STAGES.map (fun e => jsToLower e.key)) :
    stagePosition (some s) = 0 := by
  have hnone : WORKFLOW_STAGES.findIdx?
      (fun e => jsToLower e.key == jsTrim (jsToLower s)) = none := by
    rw [List.findIdx?_eq_none_iff]
    intro x hx
    simp only [beq_eq_false_iff_ne]
    exact fun hEq => h (hEq ▸ List.mem_map_of_mem (fun e => jsToLower e.key) hx)
  simp only [stagePosition, jsFindIndex, Option.getD_some, hnone]
  decide

/-! ## Claims -/

/-- Claim C1, counterexample: with the demand at stage Screening (status
Submitted) and acting role ITPMO, canAct is false, yet approveSelected does
not fail: it issues a write whose payload moves the demand to status
Under Review and stage Assessment, so the snapshot does not stay unchanged
and no PermissionDenied-class failure occurs. -/
theorem claim_C1_counterexample :
    userCanActOnSelected screeningSubmitted Role.ITPMO = false ∧
    approveSelectedPatch screeningSubmitted =
      { status := some Status.UnderReview, current_stage := some "Assessment" } ∧
    (updatePayload screeningSubmitted.id screeningSubmitted
        (approveSelectedPatch screeningSubmitted)).status = some Status.UnderReview ∧
    (updatePayload screeningSubmitted.id screeningSubmitted
        (approveSelectedPatch screeningSubmitted)).current_stage = some "Assessment" ∧
    screeningSubmitted.status = some Status.Submitted ∧
    screeningSubmitted.current_stage = some "Screening" := by
  decide

/-- Claim C1, amended: when canAct is false, the Approve/Reject controls are
not rendered, so no approve/reject write can be initiated through the UI;
the operations themselves do not re-check permissions. -/
theorem claim_C1_amended (d : Demand) (r : Role)
    (h : userCanActOnSelected d r = false) :
    approvalControlsVisible d r = false := by
  unfold approvalControlsVisible
  rw [h, Bool.and_false]

/-- Witness for the amended claim C1 at the Screening/ITPMO mismatch. -/
theorem claim_C1_amended_witness :
    approvalControlsVisible screeningSubmitted Role.ITPMO = false :=
  claim_C1_amended screeningSubmitted Role.ITPMO (by decide)

/-- Claim C2: the guard userCanActOnSelected holds exactly when the acting
role is the required role of the demand's resolved stage and the status is
Submitted or Under Review; in particular it is false whenever the status is
Draft, Approved, Rejected or Completed, regardless of the role. -/
theorem claim_C2_guard_iff (d : Demand) (r : Role) :
    (userCanActOnSelected d r = true ↔
      (requiredRoleForStage (jsOr d.current_stage d.currentStage) = some r ∧
        (d.status = some Status.Submitted ∨ d.status = some Status.UnderReview))) ∧
    (d.status = some Status.Draft ∨ d.status = some Status.Approved ∨
        d.status = some Status.Rejected ∨ d.status = some Status.Completed →
      userCanActOnSelected d r = false) := by
  constructor
  · unfold userCanActOnSelected
    simp
  · intro h
    unfold userCanActOnSelected
    rcases h with h | h | h | h <;> simp [h]

/-- Witness for claim C2: a Draft demand at Screening cannot be acted on by
BU Head even though BU Head is the required role for Screening. -/
theorem claim_C2_guard_iff_witness :
    userCanActOnSelected draftScreening Role.BUHead = false :=
  (claim_C2_guard_iff draftScreening Role.BUHead).2 (Or.inl rfl)

/-- Claim C3: at the final gated stage Authorization (Under Review, role DBR,
which the guard accepts) approve writes status Approved and stage Service
Portfolio Entry; at every gated stage strictly before Authorization it
writes status Under Review and the next stage of the approval flow. -/
theorem claim_C3_approve_transitions :
    userCanActOnSelected authUnderReview Role.DBR = true ∧
    approveSelectedPatch authUnderReview =
      { status := some Status.Approved, current_stage := some "Service Portfolio Entry" } ∧
    approveSelectedPatch intakeUnderReview =
      { status := some Status.UnderReview, current_stage := some "Screening" } ∧
    approveSelectedPatch screeningUnderReview =
      { status := some Status.UnderReview, current_stage := some "Assessment" } ∧
    approveSelectedPatch assessmentUnderReview =
      { status := some Status.UnderReview, current_stage := some "Authorization" } := by
  decide

/-- Claim C4: on each gated stage except the final one, nextStageFrom
advances the resolved index by exactly one; and for every input whatsoever,
the stage nextStageFrom returns resolves to an index no greater than the
last entry of the approval flow. -/
theorem claim_C4_advance_and_clamp :
    (stageIndex (some (nextStageFrom (some "Intake"))) = stageIndex (some "Intake") + 1 ∧
      stageIndex (some (nextStageFrom (some "Screening"))) = stageIndex (some "Screening") + 1 ∧
      stageIndex (some (nextStageFrom (some "Assessment"))) = stageIndex (some "Assessment") + 1 ∧
      stageIndex (some (nextStageFrom (some "Authorization"))) =
        stageIndex (some "Authorization") + 1) ∧
    ∀ s : Option String, stageIndex (some (nextStageFrom s)) ≤ STAGE_FLOW.length - 1 := by
  refine ⟨by decide, fun s => ?_⟩
  have h := stageIndex_lt_length (some (nextStageFrom s))
  omega

/-- Claim C5: for a gated demand the actor may act on, the reject write sets
status Rejected and carries the stored stage through unchanged (updateDemand
merges the stored row with a patch that has no stage field). -/
theorem claim_C5_reject_preserves_stage (cur : Demand) (r : Role) (s : String)
    (_hact : userCanActOnSelected cur r = true) (hs : cur.current_stage = some s) :
    (updatePayload cur.id cur rejectPatch).status = some Status.Rejected ∧
    (updatePayload cur.id cur rejectPatch).current_stage = some s := by
  simp [updatePayload, rejectPatch, ovr, hs]

/-- Witness for claim C5: rejecting the Screening/Submitted demand as BU
Head writes status Rejected and keeps stage Screening. -/
theorem claim_C5_reject_preserves_stage_witness :
    (updatePayload screeningSubmitted.id screeningSubmitted rejectPatch).status =
      some Status.Rejected ∧
    (updatePayload screeningSubmitted.id screeningSubmitted rejectPatch).current_stage =
      some "Screening" :=
  claim_C5_reject_preserves_stage screeningSubmitted Role.BUHead "Screening" (by decide) rfl

/-- Claim C6, counterexample: the two resolutions do not share case and
whitespace semantics.  The input "screening" resolves to index 1 in the
Stage Table (stagePosition lower-cases and trims) but to 0 in the approval
flow (stageIndex compares the exact string), and stageIndex also
distinguishes " Screening " from "Screening", so it is neither
case-insensitive nor whitespace-trimmed. -/
theorem claim_C6_counterexample :
    stagePosition (some "screening") = 1 ∧
    stageIndex (some "screening") = 0 ∧
    stageIndex (some "Screening") = 1 ∧
    stageIndex (some " Screening ") = 0 ∧
    stagePosition (some " Screening ") = 1 := by
  decide

/-- Claim C6, amended: both resolutions send unrecognized or absent keys to
index 0, but only stagePosition is case-insensitive and whitespace-trimmed;
stageIndex requires an exact match of the stage string. -/
theorem claim_C6_amended :
    (∀ s : String, s ∉ STAGE_FLOW.map FlowEntry.stage → stageIndex (some s) = 0) ∧
    (∀ s : String, jsTrim (jsToLower s) ∉ WORKFLOW_STAGES.map (fun e => jsToLower e.key) →
      stagePosition (some s) = 0) ∧
    stageIndex none = 0 ∧ stagePosition none = 0 ∧
    stagePosition (some " sCrEeNiNg ") = 1 ∧
    stageIndex (some " sCrEeNiNg ") = 0 := by
  exact ⟨stageIndex_eq_zero_of_not_mem, stagePosition_eq_zero_of_not_mem,
    by decide, by decide, by decide, by decide⟩

/-- Witness for the amended claim C6 at a key neither table contains. -/
theorem claim_C6_amended_witness :
    stageIndex (some "No Such Stage") = 0 ∧ stagePosition (some "No Such Stage") = 0 :=
  ⟨claim_C6_amended.1 "No Such Stage" (by decide),
   claim_C6_amended.2.1 "No Such Stage" (by decide)⟩

/-- Claim C7: an input that resolves to no Stage Table entry (that is, its
lower-cased, trimmed form matches no table key; every approval-flow stage
name also occurs in the table, so such an input matches no flow entry
either), as well as the null and empty inputs, makes both stagePosition and
stageIndex return 0; both functions are total. -/
theorem claim_C7_unknown_resolves_to_zero :
    (∀ s : String, jsTrim (jsToLower s) ∉ WORKFLOW_STAGES.map (fun e => jsToLower e.key) →
      stagePosition (some s) = 0 ∧ stageIndex (some s) = 0) ∧
    stagePosition none = 0 ∧ stageIndex none = 0 ∧
    stagePosition (some "") = 0 ∧ stageIndex (some "") = 0 := by
  refine ⟨fun s h => ⟨stagePosition_eq_zero_of_not_mem s h, ?_⟩,
    by decide, by decide, by decide, by decide⟩
  refine stageIndex_eq_zero_of_not_mem s ?_
  intro hs
  apply h
  simp only [STAGE_FLOW, List.map_cons, List.map_nil, List.mem_cons,
    List.not_mem_nil, or_false] at hs
  rcases hs with rfl | rfl | rfl | rfl | rfl <;> decide

/-- Witness for claim C7 at a key outside both tables. -/
theorem claim_C7_unknown_resolves_to_zero_witness :
    stagePosition (some "Paused") = 0 ∧ stageIndex (some "Paused") = 0 :=
  claim_C7_unknown_resolves_to_zero.1 "Paused" (by decide)

/-- Claim C8: for every input, buildWorkflow returns the fixed list of 9
stages, exactly one entry is current (the one at the resolved index), every
entry strictly below the resolved index is completed and every entry at or
above it is not. -/
theorem claim_C8_progress_view (k : Option String) :
    (buildWorkflow k).length = 9 ∧
    (buildWorkflow k).countP (fun e => e.current) = 1 ∧
    ∀ i, i < 9 →
      ((buildWorkflow k).getD i viewDefault).completed = decide (i < stagePosition k) ∧
      ((buildWorkflow k).getD i viewDefault).current = decide (i = stagePosition k) := by
  have h9 : stagePosition k < 9 := stagePosition_lt_length k
  unfold buildWorkflow
  generalize stagePosition k = c at h9 ⊢
  interval_cases c <;> decide

/-- Witness for claim C8 on the Assessment stage: the view has 9 entries,
the entry below the current index is completed, the current one is not. -/
theorem claim_C8_progress_view_witness :
    (buildWorkflow (some "Assessment")).length = 9 ∧
    ((buildWorkflow (some "Assessment")).getD 1 viewDefault).completed = true ∧
    ((buildWorkflow (some "Assessment")).getD 2 viewDefault).current = true := by
  have h := claim_C8_progress_view (some "Assessment")
  refine ⟨h.1, ?_, ?_⟩
  · rw [(h.2.2 1 (by decide)).1]
    decide
  · rw [(h.2.2 2 (by decide)).2]
    decide

/-- Claim C9, counterexample: a patch that contains created_date does not
get its value into the written payload; updateDemand always keeps the
stored row's created date, so not every field present in the patch takes
the patch's value. -/
theorem claim_C9_counterexample :
    createdDatePatch.created_date = some "2024-06-30" ∧
    (updatePayload storedRow.id storedRow createdDatePatch).created_date =
      some "2020-01-01" ∧
    (updatePayload storedRow.id storedRow createdDatePatch).created_date ≠
      createdDatePatch.created_date := by
  decide

/-- Claim C9, amended: the written payload applies the patch on top of the
stored row for the workflow fields (shown here for status, current_stage,
the description and progress): a field present in the patch takes the
patch's value, a field absent from it keeps the stored value (current_stage
falling back to the stored camelCase alias) and is never nulled out; the
exception is created_date, which always keeps the stored row's value. -/
theorem claim_C9_amended (i : String) (cur : Demand) (patch : Patch) :
    ((∀ v, patch.status = some v → (updatePayload i cur patch).status = some v) ∧
      (patch.status = none → (updatePayload i cur patch).status = cur.status)) ∧
    ((∀ v, patch.current_stage = some v →
        (updatePayload i cur patch).current_stage = some v) ∧
      (patch.current_stage = none → patch.currentStage = none →
        (updatePayload i cur patch).current_stage = ovr cur.current_stage cur.currentStage)) ∧
    ((∀ v, patch.descr = some v → (updatePayload i cur patch).descr = some v) ∧
      (patch.descr = none → (updatePayload i cur patch).descr = cur.descr)) ∧
    ((∀ v, patch.progress = some v → (updatePayload i cur patch).progress = some v) ∧
      (patch.progress = none → (updatePayload i cur patch).progress = cur.progress)) ∧
    (updatePayload i cur patch).created_date = ovr cur.created_date cur.createdDate := by
  refine ⟨⟨fun v h => ?_, fun h => ?_⟩, ⟨fun v h => ?_, fun h h' => ?_⟩,
    ⟨fun v h => ?_, fun h => ?_⟩, ⟨fun v h => ?_, fun h => ?_⟩, rfl⟩
  · simp [updatePayload, h]
  · simp [updatePayload, h]
  · simp [updatePayload, h]
  · simp [updatePayload, h, h']
  · simp [updatePayload, h]
  · simp [updatePayload, h]
  · simp [updatePayload, h]
  · simp [updatePayload, h]

/-- Witness for the amended claim C9: the reject patch sets the status and
keeps the stored description. -/
theorem claim_C9_amended_witness :
    (updatePayload storedRow.id storedRow rejectPatch).status = some Status.Rejected ∧
    (updatePayload storedRow.id storedRow rejectPatch).descr = storedRow.descr :=
  ⟨(claim_C9_amended storedRow.id storedRow rejectPatch).1.1 Status.Rejected rfl,
   (claim_C9_amended storedRow.id storedRow rejectPatch).2.2.1.2 rfl⟩

/-- Claim C10: the four Stage Table stages absent from the approval flow
(Evaluation, Business Case Development, Service Implementation/Monitoring,
Closure) all resolve to flow index 0, required role Demand Requestor and
next stage Screening, exactly as a demand parked at Intake would. -/
theorem claim_C10_display_only_stages :
    ("Evaluation" ∈ WORKFLOW_STAGES.map StageEntry.key ∧
      "Evaluation" ∉ STAGE_FLOW.map FlowEntry.stage ∧
      stageIndex (some "Evaluation") = 0 ∧
      requiredRoleForStage (some "Evaluation") = some Role.DemandRequestor ∧
      nextStageFrom (some "Evaluation") = "Screening") ∧
    ("Business Case Development" ∈ WORKFLOW_STAGES.map StageEntry.key ∧
      "Business Case Development" ∉ STAGE_FLOW.map FlowEntry.stage ∧
      stageIndex (some "Business Case Development") = 0 ∧
      requiredRoleForStage (some "Business Case Development") = some Role.DemandRequestor ∧
      nextStageFrom (some "Business Case Development") = "Screening") ∧
    ("Service Implementation/Monitoring" ∈ WORKFLOW_STAGES.map StageEntry.key ∧
      "Service Implementation/Monitoring" ∉ STAGE_FLOW.map FlowEntry.stage ∧
      stageIndex (some "Service Implementation/Monitoring") = 0 ∧
      requiredRoleForStage (some "Service Implementation/Monitoring") =
        some Role.DemandRequestor ∧
      nextStageFrom (some "Service Implementation/Monitoring") = "Screening") ∧
    ("Closure" ∈ WORKFLOW_STAGES.map StageEntry.key ∧
      "Closure" ∉ STAGE_FLOW.map FlowEntry.stage ∧
      stageIndex (some "Closure") = 0 ∧
      requiredRoleForStage (some "Closure") = some Role.DemandRequestor ∧
      nextStageFrom (some "Closure") = "Screening") := by
  decide

end ITDM
